import Mathlib

/-
Verification of the navigation state machine, chat submission pipeline,
LLM gateway error contract, and persistence layer of the erg-ai-tool
Streamlit chatbot (files streamlit_chatbot/app_new.py, config.py, auth.py).

The Python code is shallowly embedded: Streamlit session state becomes an
explicit NavState record, each UI control becomes an Action, and one user
interaction (click / chat submission followed by the scripted rerun) becomes
one application of the step function.  External effects (the Gemini provider,
the MongoDB server, the local fallback JSON files) are modelled as explicit
data threaded through the functions, and the datetime clock as a Nat tick
passed in by the caller.
-/

namespace Erg

/-- One chat turn as stored in st.session_state.chat_histories: a dict
with a role ("user" or "assistant") and a content string
(app_new.py lines 645 and 659). -/
structure ChatTurn where
  role : String
  content : String
deriving Repr, DecidableEq

/-- One message of the history handed to the Gemini SDK: a dict with a
provider role ("user" or "model") and a parts list
(config.py lines 55-58). -/
structure GeminiMsg where
  role : String
  parts : List String
deriving Repr, DecidableEq

/-- The per-level configuration dict of a cohort in prompts_new.json, with
the fields the control flow reads via .get with defaults
(app_new.py lines 582-584 and 608). -/
structure LevelConfig where
  name : Option String
  system_prompt : Option String
  resources : List String
deriving Repr, DecidableEq

/-- A cohort dict: id, display name, type tag, and the levels mapping keyed
by the stringified level id (app_new.py lines 335, 354, 582). -/
structure Cohort where
  id : String
  name : String
  type : String
  levels : List (String × LevelConfig)
deriving Repr, DecidableEq

/-- A course dict from the configuration (app_new.py lines 414-432). -/
structure Course where
  id : String
  name : String
  icon : String
  description : String
  cohorts : List Cohort
deriving Repr, DecidableEq

/-- One entry of the blooms_levels list of the configuration
(app_new.py lines 522-531). -/
structure BloomLevel where
  id : Int
  name : String
  icon : String
  description : String
deriving Repr, DecidableEq

/-- The configuration dict returned by load_config (config.py lines 14-25). -/
structure Config where
  courses : List Course
  blooms_levels : List BloomLevel
deriving Repr, DecidableEq

/-- Python truthiness of the selected_level session value: None and the
integer 0 are falsy, every other integer is truthy (the checks
"if not level" and "if course and cohort and level"). -/
def truthyLevel : Option Int → Bool
  | none => false
  | some n => n != 0

/-- The Streamlit session state fields read or written by app_new.py
(init_session_state, lines 248-282). -/
structure NavState where
  session_id : String
  current_view : String
  selected_course : Option Course
  selected_cohort : Option Cohort
  selected_level : Option Int
  chat_histories : List (String × List ChatTurn)
  logged_in : Bool
  user_id : Option String
  user_name : Option String
  username : Option String
  chat_start_time : Option Nat
deriving Repr, DecidableEq

/-- get_chat_key (app_new.py lines 285-293): when course, cohort and level
are all truthy, the key is the f-string course id, cohort id and level
joined by underscores; otherwise None. -/
def get_chat_key (s : NavState) : Option String :=
  match s.selected_course, s.selected_cohort, s.selected_level with
  | some course, some cohort, some level =>
    if level != 0 then some (course.id ++ "_" ++ cohort.id ++ "_" ++ toString level)
    else none
  | _, _, _ => none

/-- The default level data used when the cohort has no entry for the level:
cohort.get("levels", {}).get(str(level), {}) yields an empty dict, whose
.get calls then return the fallback values. -/
def defaultLevelConfig : LevelConfig := { name := none, system_prompt := none, resources := [] }

/-- Resolution of the level data dict for a selected level
(app_new.py line 582). -/
def levelDataOf (cohort : Cohort) (level : Int) : LevelConfig :=
  (cohort.levels.lookup (toString level)).getD defaultLevelConfig

/-- Python dict assignment d[k] = v on an insertion-ordered dict modelled as
an association list: replace the value of an existing key in place,
otherwise append the binding at the end. -/
def setEntry {α : Type} (m : List (String × α)) (k : String) (v : α) : List (String × α) :=
  match m with
  | [] => [(k, v)]
  | (k0, v0) :: rest => if k0 == k then (k, v) :: rest else (k0, v0) :: setEntry rest k v

/-- The history translation loop of get_gemini_response
(config.py lines 55-58): internal roles map to the provider vocabulary,
"user" stays "user" and everything else becomes "model", each content
wrapped in a parts list, order preserved. -/
def translateHistory (chat_history : List ChatTurn) : List GeminiMsg :=
  chat_history.map (fun msg =>
    GeminiMsg.mk (if msg.role == "user" then "user" else "model") [msg.content])

/-- get_gemini_response (config.py lines 46-66).  The whole provider
interaction (model construction with the system instruction, start_chat on
the translated history, send_message, reading response.text) sits inside one
try block and is modelled by the provider oracle, which either returns the
generated text or the detail string of the exception it raised.  The except
branch returns the apology string with the error detail appended; the Lean
function is total, mirroring that no exception escapes to the caller. -/
def get_gemini_response (system_prompt : String) (chat_history : List ChatTurn)
    (user_message : String)
    (provider : String → List GeminiMsg → String → Except String String) : String :=
  match provider system_prompt (translateHistory chat_history) user_message with
  | Except.ok text => text
  | Except.error e => "I apologize, but I encountered an error: " ++ e

/-- The history argument of the gateway call inside the chat submission
handler (app_new.py lines 645 and 654): the user turn is appended to the
history list first and the call then passes chat_history[:-1]. -/
def submitHistoryArg (hist : List ChatTurn) (prompt : String) : List ChatTurn :=
  (hist ++ [ChatTurn.mk "user" prompt]).dropLast

/-- The user interactions of app_new.py, one constructor per UI control:
successful login (auth.py lines 174-183), the sidebar Logout, Home, Back and
Clear Chat buttons, the selection buttons of the three selection screens,
the Exit Chat button, and a chat input submission.  Constructors carry the
data the handler reads from outside the session state: the fresh uuid4
value, the authenticated user record, the clicked item, the typed prompt,
and for a submission the provider oracle deciding the Gemini outcome. -/
inductive Action where
  | loginAs (uid uname dispname fresh : String)
  | logout (fresh : String)
  | home
  | sidebarBack
  | clearChat
  | selectCourse (c : Course)
  | selectCohort (co : Cohort)
  | selectLevel (lid : Int)
  | exitChat
  | submit (prompt : String) (provider : String → List GeminiMsg → String → Except String String)

/-- The disjunction of the three screen guards: render_cohort_selection
(app_new.py lines 439-441, selected course falsy), render_level_selection
(lines 505-507, course or cohort falsy) and render_chat_interface
(lines 576-579, course, cohort or level falsy).  The guards run only when a
user is logged in, because main returns to the login page before rendering
any of these views (lines 713-715). -/
def guardTrips (s : NavState) : Bool :=
  s.logged_in &&
  ((s.current_view == "cohort_selection" && s.selected_course.isNone) ||
   (s.current_view == "level_selection" &&
     (s.selected_course.isNone || s.selected_cohort.isNone)) ||
   (s.current_view == "chat" &&
     (s.selected_course.isNone || s.selected_cohort.isNone || !truthyLevel s.selected_level)))

/-- The guard effect: each of the three guards assigns
current_view = "course_selection" and reruns, touching nothing else. -/
def renderGuard (s : NavState) : NavState :=
  if guardTrips s then { s with current_view := "course_selection" } else s

/-- The state mutation of each UI control, guarded by the condition under
which the control is rendered at all (so that a sequence of arbitrary
actions can only ever fire handlers the UI actually offers).  Line numbers
refer to app_new.py unless noted. -/
def applyAction (cfg : Config) (gemini_ready : Bool) (s : NavState) : Action → NavState
  | Action.loginAs uid uname dispname fresh =>
    -- login form handler, auth.py lines 176-183; shown only when logged out
    if s.logged_in = false then
      { s with logged_in := true, user_id := some uid, user_name := some dispname,
               username := some uname, current_view := "course_selection",
               session_id := fresh }
    else s
  | Action.logout fresh =>
    -- Logout button, lines 387-395
    if s.logged_in then
      { s with logged_in := false, user_id := none, user_name := none, username := none,
               current_view := "login", session_id := fresh, chat_histories := [] }
    else s
  | Action.home =>
    -- Home button, lines 307-313
    if s.logged_in then
      { s with current_view := "course_selection", selected_course := none,
               selected_cohort := none, selected_level := none }
    else s
  | Action.sidebarBack =>
    -- sidebar Back button: lines 317-320 in the chat view,
    -- lines 374-381 in the cohort and level selection views
    if s.logged_in then
      if s.current_view == "chat" then { s with current_view := "level_selection" }
      else if s.current_view == "level_selection" then
        { s with current_view := "cohort_selection" }
      else if s.current_view == "cohort_selection" then
        { s with current_view := "course_selection", selected_course := none }
      else s
    else s
  | Action.clearChat =>
    -- Clear Chat button, lines 368-372; rendered only inside the truthiness
    -- check of lines 324-328
    if s.logged_in && s.current_view == "chat" && s.selected_course.isSome
        && s.selected_cohort.isSome && truthyLevel s.selected_level then
      match get_chat_key s with
      | some k => { s with chat_histories := setEntry s.chat_histories k [] }
      | none => s
    else s
  | Action.selectCourse c =>
    -- course Select buttons, lines 427-432, one per configured course
    if s.logged_in && s.current_view == "course_selection" && cfg.courses.contains c then
      { s with selected_course := some c, current_view := "cohort_selection" }
    else s
  | Action.selectCohort co =>
    -- cohort Select buttons, lines 492-497, one per cohort of the selected
    -- course; reachable only past the guard of lines 439-441
    if s.logged_in && s.current_view == "cohort_selection" then
      match s.selected_course with
      | some course =>
        if course.cohorts.contains co then
          { s with selected_cohort := some co, current_view := "level_selection" }
        else s
      | none => s
    else s
  | Action.selectLevel lid =>
    -- Start Level buttons, lines 549-556: rendered only for the first six
    -- blooms levels (two rows of three, lines 525-529) and only when the
    -- cohort has level data for the tier (line 535)
    if s.logged_in && s.current_view == "level_selection" && s.selected_course.isSome
        && s.selected_cohort.isSome then
      match s.selected_cohort with
      | some cohort =>
        if ((cfg.blooms_levels.take 6).map BloomLevel.id).contains lid
            && (cohort.levels.lookup (toString lid)).isSome then
          { s with selected_level := some lid, current_view := "chat" }
        else s
      | none => s
    else s
  | Action.exitChat =>
    -- Exit Chat button, lines 602-605; rendered only past the guard of
    -- lines 576-579
    if s.logged_in && s.current_view == "chat" && s.selected_course.isSome
        && s.selected_cohort.isSome && truthyLevel s.selected_level then
      { s with current_view := "level_selection", selected_level := none }
    else s
  | Action.submit prompt provider =>
    -- chat input handler, lines 644-660: get-or-create the history of the
    -- chat key (lines 615-617), append the user turn, call the gateway on
    -- chat_history[:-1], append the assistant turn, store the list back.
    -- The input is reachable only past the guard and when gemini is ready
    -- (lines 638-642), and the walrus assignment fires only on a non-empty
    -- prompt.
    if s.logged_in && s.current_view == "chat" && s.selected_course.isSome
        && s.selected_cohort.isSome && truthyLevel s.selected_level
        && gemini_ready && prompt != "" then
      match s.selected_cohort, s.selected_level, get_chat_key s with
      | some cohort, some level, some k =>
        let hist := (s.chat_histories.lookup k).getD []
        let sys := (levelDataOf cohort level).system_prompt.getD ""
        let response := get_gemini_response sys (submitHistoryArg hist prompt) prompt provider
        let updated := (hist ++ [ChatTurn.mk "user" prompt]) ++ [ChatTurn.mk "assistant" response]
        { s with chat_histories := setEntry s.chat_histories k updated }
      | _, _, _ => s
    else s

/-- One user interaction: the handler mutates the session state and the
scripted rerun then renders the new view, whose guard may bounce the state
back to course selection before anything else happens. -/
def step (cfg : Config) (gemini_ready : Bool) (s : NavState) (a : Action) : NavState :=
  renderGuard (applyAction cfg gemini_ready s a)

/-- The session state produced by init_session_state on a fresh browser
session (app_new.py lines 248-282). -/
def initState (fresh : String) : NavState :=
  { session_id := fresh, current_view := "login", selected_course := none,
    selected_cohort := none, selected_level := none, chat_histories := [],
    logged_in := false, user_id := none, user_name := none, username := none,
    chat_start_time := none }

/-- The states reachable by some sequence of user interactions from a fresh
session. -/
inductive Reachable (cfg : Config) (gemini_ready : Bool) : NavState → Prop where
  | init (fresh : String) : Reachable cfg gemini_ready (initState fresh)
  | next (s : NavState) (a : Action) : Reachable cfg gemini_ready s →
      Reachable cfg gemini_ready (step cfg gemini_ready s a)

/-- One chat_entry dict forwarded to the session upsert
(app_new.py lines 674-678); the isoformat timestamp is abstracted to a
clock tick. -/
structure ChatEntry where
  timestamp : Nat
  user_question : String
  ai_response : String
deriving Repr, DecidableEq

/-- One document of the user_sessions collection
(config.py lines 207-220). -/
structure SessionDoc where
  session_id : String
  user_id : Option String
  user_name : Option String
  course_id : String
  course_name : String
  cohort_id : String
  cohort_name : String
  bloom_level : Int
  chat_start_time : Nat
  chat_end_time : Option Nat
  usage_tokens : Nat
  chat_history : List ChatEntry
deriving Repr, DecidableEq

/-- One conversation log record built by log_conversation
(config.py lines 131-140); the timestamp is abstracted to a clock tick
(the code stores an isoformat string locally and a datetime in Mongo,
a serialization difference only). -/
structure LogEntry where
  timestamp : Nat
  course : String
  cohort : String
  level : Int
  user_query : String
  ai_response : String
  session_id : String
  user_id : Option String
deriving Repr, DecidableEq

/-- The persistent state the two config.py writers touch: the two MongoDB
collections of the chatbot_logs database and the local fallback JSON array
of conversation logs (LOCAL_LOGS_FILE). -/
structure World where
  user_sessions : List SessionDoc
  conversations : List LogEntry
  local_logs : List LogEntry
deriving Repr, DecidableEq

/-- The filter document {"session_id": session_id, "user_id": user_id} used
by both find_one and update_one in create_or_update_user_session
(config.py lines 179-181 and 192-193). -/
def sessionKeyMatch (session_id : String) (user_id : Option String) (d : SessionDoc) : Bool :=
  d.session_id == session_id && d.user_id == user_id

/-- collection.find_one on the user_sessions collection: the first document
matching the filter, in insertion order. -/
def find_one (db : List SessionDoc) (session_id : String) (user_id : Option String) :
    Option SessionDoc :=
  db.find? (sessionKeyMatch session_id user_id)

/-- collection.update_one on the user_sessions collection: apply the update
to the first document matching the filter, leave everything else alone. -/
def update_one (db : List SessionDoc) (session_id : String) (user_id : Option String)
    (f : SessionDoc → SessionDoc) : List SessionDoc :=
  match db with
  | [] => []
  | d :: rest =>
    if sessionKeyMatch session_id user_id d then f d :: rest
    else d :: update_one rest session_id user_id f

/-- create_or_update_user_session (config.py lines 156-224).  A None client
returns immediately (lines 171-172).  Otherwise the existing aggregate for
(session_id, user_id) is looked up; if present, chat_end_time is set to the
current time when is_end and to its existing value otherwise (lines
185-189), and the update pushes the chat entry and increments usage_tokens
when a truthy chat_entry is given (lines 191-199), or just applies the $set
and $inc when not (lines 200-204); if absent, a fresh document is inserted
with the entry as its whole history (lines 205-222).  The clock is the now
parameter; chat_entry is an Option, none standing for the falsy default. -/
def create_or_update_user_session (now : Nat) (mongo_client : Option Unit)
    (user_id : Option String) (user_name : Option String)
    (course_id course_name cohort_id cohort_name : String) (bloom_level : Int)
    (session_id : String) (chat_entry : Option ChatEntry) (tokens_used : Nat)
    (is_end : Bool) (w : World) : World :=
  match mongo_client with
  | none => w
  | some _ =>
    match find_one w.user_sessions session_id user_id with
    | some existing_session =>
      let new_end := if is_end then some now else existing_session.chat_end_time
      match chat_entry with
      | some entry =>
        { w with user_sessions :=
            update_one w.user_sessions session_id user_id (fun d =>
              { d with chat_history := d.chat_history ++ [entry],
                       usage_tokens := d.usage_tokens + tokens_used,
                       chat_end_time := new_end }) }
      | none =>
        { w with user_sessions :=
            update_one w.user_sessions session_id user_id (fun d =>
              { d with chat_end_time := new_end,
                       usage_tokens := d.usage_tokens + tokens_used }) }
    | none =>
      let document : SessionDoc :=
        { session_id := session_id, user_id := user_id, user_name := user_name,
          course_id := course_id, course_name := course_name, cohort_id := cohort_id,
          cohort_name := cohort_name, bloom_level := bloom_level,
          chat_start_time := now, chat_end_time := none, usage_tokens := tokens_used,
          chat_history := match chat_entry with | some e => [e] | none => [] }
      { w with user_sessions := w.user_sessions ++ [document] }

/-- log_conversation (config.py lines 120-153): with a client the entry is
inserted into the conversations collection; without one it is appended to
the local fallback log file. -/
def log_conversation (now : Nat) (mongo_client : Option Unit)
    (course cohort : String) (level : Int) (user_query ai_response session_id : String)
    (user_id : Option String) (w : World) : World :=
  let log_entry : LogEntry :=
    { timestamp := now, course := course, cohort := cohort, level := level,
      user_query := user_query, ai_response := ai_response, session_id := session_id,
      user_id := user_id }
  match mongo_client with
  | some _ => { w with conversations := w.conversations ++ [log_entry] }
  | none => { w with local_logs := w.local_logs ++ [log_entry] }

/-- One document of the users collection as written by register_user
(auth.py lines 108-114); the password field holds the digest. -/
structure UserDoc where
  user_id : String
  username : String
  password : String
  name : String
  created_at : Nat
deriving Repr, DecidableEq

/-- One value of the local_users.json mapping as written by register_user
(auth.py lines 131-136); the file maps username to this record. -/
structure LocalUserRec where
  user_id : String
  password : String
  name : String
  created_at : Nat
deriving Repr, DecidableEq

/-- The result dict of register_user: success flag, the new user id on
success, and the message string. -/
structure RegisterResult where
  success : Bool
  user_id : Option String
  message : String
deriving Repr, DecidableEq

/-- The outcome of one register_user call: its result dict together with the
backing stores after the call (the users collection when a client exists,
and the local_users.json mapping). -/
structure RegisterOutcome where
  result : RegisterResult
  mongo_users : Option (List UserDoc)
  local_users : List (String × LocalUserRec)
deriving Repr, DecidableEq

/-- register_user (auth.py lines 95-142).  With a client, a find_one on the
username decides duplication and otherwise a fresh document is inserted
(lines 99-121).  Without one, membership in the local mapping decides
duplication and otherwise the record is stored under the username and the
file saved (lines 126-142).  The digest function, the generated uuid and
the clock are passed in; the function is total, so no branch raises. -/
def register_user (hash : String → String) (mongo_users : Option (List UserDoc))
    (local_users : List (String × LocalUserRec)) (username password name : String)
    (fresh_uuid : String) (now : Nat) : RegisterOutcome :=
  match mongo_users with
  | some db =>
    if (db.find? (fun u => u.username == username)).isSome then
      { result := { success := false, user_id := none, message := "Username already exists" },
        mongo_users := some db, local_users := local_users }
    else
      let document : UserDoc :=
        { user_id := fresh_uuid, username := username, password := hash password,
          name := name, created_at := now }
      { result := { success := true, user_id := some fresh_uuid,
                    message := "User registered successfully" },
        mongo_users := some (db ++ [document]), local_users := local_users }
  | none =>
    if (local_users.find? (fun p => p.1 == username)).isSome then
      { result := { success := false, user_id := none, message := "Username already exists" },
        mongo_users := none, local_users := local_users }
    else
      let entry : LocalUserRec :=
        { user_id := fresh_uuid, password := hash password, name := name, created_at := now }
      { result := { success := true, user_id := some fresh_uuid,
                    message := "User registered successfully (local storage)" },
        mongo_users := none, local_users := local_users ++ [(username, entry)] }

/-
Sample data used by witnesses and counterexamples: a one-course,
one-cohort, one-level configuration of the shape of prompts_new.json.
-/

/-- Sample level data for tier 1 of the sample cohort. -/
def sampleLevelConfig : LevelConfig :=
  { name := some "Remember", system_prompt := some "Teach recall.", resources := ["intro.pdf"] }

/-- Sample cohort of type ai with level 1 configured. -/
def sampleCohort : Cohort :=
  { id := "ai", name := "AI Led", type := "ai", levels := [("1", sampleLevelConfig)] }

/-- Sample course holding the sample cohort. -/
def sampleCourse : Course :=
  { id := "criminal_law", name := "Criminal Law", icon := "CL", description := "Intro law",
    cohorts := [sampleCohort] }

/-- Sample configuration with one course and one blooms level. -/
def sampleConfig : Config :=
  { courses := [sampleCourse],
    blooms_levels := [{ id := 1, name := "Remember", icon := "R", description := "Recall" }] }

/-- Fresh session at the login screen. -/
def navState0 : NavState := initState "sid-0"

/-- After a successful login. -/
def navState1 : NavState :=
  step sampleConfig true navState0 (Action.loginAs "u1" "alice" "Alice" "sid-1")

/-- After picking the sample course. -/
def navState2 : NavState := step sampleConfig true navState1 (Action.selectCourse sampleCourse)

/-- After picking the sample cohort. -/
def navState3 : NavState := step sampleConfig true navState2 (Action.selectCohort sampleCohort)

/-- After starting level 1: a state in the chat view. -/
def chatNavState : NavState := step sampleConfig true navState3 (Action.selectLevel 1)

/-- A session state whose view field says chat although no course was ever
chosen, as a deep link would produce; the guard must bounce it. -/
def brokenNavState : NavState :=
  { initState "sid-9" with logged_in := true, current_view := "chat" }

/-- A provider oracle whose interaction always raises with detail boom. -/
def c3Provider : String → List GeminiMsg → String → Except String String :=
  fun _ _ _ => Except.error "boom"

/-- First concrete chat entry for the persistence examples. -/
def c56Entry1 : ChatEntry := { timestamp := 1, user_question := "q1", ai_response := "a1" }

/-- Second concrete chat entry for the persistence examples. -/
def c56Entry2 : ChatEntry := { timestamp := 2, user_question := "q2", ai_response := "a2" }

/-- A world with empty store collections and an empty fallback file. -/
def emptyWorld : World := { user_sessions := [], conversations := [], local_logs := [] }

/-- An existing session aggregate with one history entry and a null end
time, as the first chat turn of a session creates it. -/
def c6Doc : SessionDoc :=
  { session_id := "s1", user_id := some "u1", user_name := some "Alice",
    course_id := "criminal_law", course_name := "Criminal Law", cohort_id := "ai",
    cohort_name := "AI Led", bloom_level := 1, chat_start_time := 5, chat_end_time := none,
    usage_tokens := 4, chat_history := [c56Entry1] }

/-- A world holding just that aggregate. -/
def c6World : World := { user_sessions := [c6Doc], conversations := [], local_logs := [] }

/-- The chat state above is reachable from a fresh session. -/
theorem chatNavState_reachable : Reachable sampleConfig true chatNavState :=
  Reachable.next _ _ (Reachable.next _ _ (Reachable.next _ _
    (Reachable.next _ _ (Reachable.init "sid-0"))))

/-
Shared lemmas about the embedded primitives.
-/

/-- Looking a key up after setEntry stored a value under it yields that
value. -/
theorem lookup_setEntry {α : Type} (m : List (String × α)) (k : String) (v : α) :
    (setEntry m k v).lookup k = some v := by
  induction m with
  | nil => simp [setEntry, List.lookup]
  | cons p rest ih =>
    rcases p with ⟨k0, v0⟩
    by_cases h : k0 == k
    · simp [setEntry, h, List.lookup]
    · have hne : k0 ≠ k := by simpa using h
      have hk : (k == k0) = false := by
        rw [beq_eq_false_iff_ne]
        exact fun hh => hne hh.symm
      simp [setEntry, h, List.lookup, hk, ih]

/-- The success branch of the gateway returns the provider text. -/
theorem get_gemini_response_ok (system_prompt : String) (chat_history : List ChatTurn)
    (user_message : String) (provider : String → List GeminiMsg → String → Except String String)
    (t : String)
    (h : provider system_prompt (translateHistory chat_history) user_message = Except.ok t) :
    get_gemini_response system_prompt chat_history user_message provider = t := by
  simp [get_gemini_response, h]

/-- The except branch of the gateway returns the apology string with the
error detail appended. -/
theorem get_gemini_response_error (system_prompt : String) (chat_history : List ChatTurn)
    (user_message : String) (provider : String → List GeminiMsg → String → Except String String)
    (e : String)
    (h : provider system_prompt (translateHistory chat_history) user_message = Except.error e) :
    get_gemini_response system_prompt chat_history user_message provider =
      "I apologize, but I encountered an error: " ++ e := by
  simp [get_gemini_response, h]

/-
C4 and the chat submission pipeline facts.
-/

/-- C4: for every input, get_gemini_response is a total function that never
propagates a provider failure: when the provider interaction raises with
detail e, the result is the apology string with e embedded at its end, and
when the provider succeeds the result is the generated text. -/
theorem c4_gateway_never_raises (system_prompt : String) (chat_history : List ChatTurn)
    (user_message : String)
    (provider : String → List GeminiMsg → String → Except String String) :
    (∀ t, provider system_prompt (translateHistory chat_history) user_message = Except.ok t →
      get_gemini_response system_prompt chat_history user_message provider = t) ∧
    (∀ e, provider system_prompt (translateHistory chat_history) user_message = Except.error e →
      get_gemini_response system_prompt chat_history user_message provider =
        "I apologize, but I encountered an error: " ++ e) :=
  ⟨fun t ht => get_gemini_response_ok _ _ _ _ t ht,
   fun e he => get_gemini_response_error _ _ _ _ e he⟩

/-- Witness for C4 at a failing provider. -/
theorem c4_gateway_never_raises_witness :
    get_gemini_response "tutor" [] "hello" (fun _ _ _ => Except.error "quota exceeded") =
      "I apologize, but I encountered an error: quota exceeded" :=
  (c4_gateway_never_raises "tutor" [] "hello"
    (fun _ _ _ => Except.error "quota exceeded")).2 "quota exceeded" rfl

/-- C8: the history argument handed to the gateway by the submission
handler, chat_history[:-1] taken after the user turn was appended, is
exactly the turn list as it stood before the submission; consequently the
gateway call of the handler equals a call on the prior turns alone. -/
theorem c8_history_excludes_new_turn (hist : List ChatTurn) (prompt : String) :
    submitHistoryArg hist prompt = hist ∧
    ∀ (sys : String) (provider : String → List GeminiMsg → String → Except String String),
      get_gemini_response sys (submitHistoryArg hist prompt) prompt provider =
        get_gemini_response sys hist prompt provider := by
  have h : submitHistoryArg hist prompt = hist := by simp [submitHistoryArg]
  exact ⟨h, fun sys provider => by rw [h]⟩

/-- C10: with the document-store client unavailable, the session upsert
returns immediately and persists nothing at all, while the conversation
logger appends its entry to the local fallback log file, leaving both Mongo
collections untouched. -/
theorem c10_store_down_behaviour (w : World) (n1 n2 : Nat) (uid un : Option String)
    (ci cn chi chn : String) (bl : Int) (sid : String) (e : Option ChatEntry) (t : Nat)
    (ie : Bool) (course cohort : String) (lvl : Int) (uq ar : String) :
    create_or_update_user_session n1 none uid un ci cn chi chn bl sid e t ie w = w ∧
    log_conversation n2 none course cohort lvl uq ar sid uid w =
      { w with local_logs := w.local_logs ++
          [{ timestamp := n2, course := course, cohort := cohort, level := lvl,
             user_query := uq, ai_response := ar, session_id := sid, user_id := uid }] } :=
  ⟨rfl, rfl⟩

/-
Navigation state machine lemmas.
-/

/-- No handler can leave a logged-out state on a view other than login:
logout itself moves the view to login and every other handler either
requires a logged-in state or logs the user in. -/
theorem applyAction_logged_out_view (cfg : Config) (g : Bool) (s : NavState) (a : Action)
    (h : s.logged_in = false → s.current_view = "login") :
    (applyAction cfg g s a).logged_in = false →
      (applyAction cfg g s a).current_view = "login" := by
  cases a <;> simp only [applyAction] <;> (repeat' split) <;> simp_all

/-- In a logged-in chat-view state the guard can only be quiet when all
three selections are truthy. -/
theorem guard_false_chat (t : NavState) (hl : t.logged_in = true)
    (hchat : t.current_view = "chat") (hg : guardTrips t = false) :
    t.selected_course.isSome = true ∧ t.selected_cohort.isSome = true ∧
      truthyLevel t.selected_level = true := by
  unfold guardTrips at hg
  rw [hl, hchat] at hg
  simp at hg
  exact ⟨hg.1.1, hg.1.2, hg.2⟩

/-- Applying the render guard to any state whose only defect may be a stale
view yields a state satisfying the navigation invariant: logged-out states
sit on the login view, and a chat view implies truthy selections. -/
theorem navInv_renderGuard (t : NavState) (h : t.logged_in = false → t.current_view = "login") :
    ((renderGuard t).logged_in = false → (renderGuard t).current_view = "login") ∧
    ((renderGuard t).current_view = "chat" →
      (renderGuard t).selected_course.isSome = true ∧
      (renderGuard t).selected_cohort.isSome = true ∧
      truthyLevel (renderGuard t).selected_level = true) := by
  unfold renderGuard
  by_cases hg : guardTrips t = true
  · rw [if_pos hg]
    have hl : t.logged_in = true := by
      unfold guardTrips at hg
      rw [Bool.and_eq_true] at hg
      exact hg.1
    constructor
    · intro hf
      simp only at hf
      rw [hl] at hf
      exact absurd hf (by decide)
    · intro hchat
      simp only at hchat
      exact absurd hchat (by decide)
  · rw [if_neg hg]
    rw [Bool.not_eq_true] at hg
    refine ⟨h, ?_⟩
    intro hchat
    by_cases hl : t.logged_in = true
    · exact guard_false_chat t hl hchat hg
    · have hlf : t.logged_in = false := by simpa using hl
      rw [h hlf] at hchat
      exact absurd hchat (by decide)

/-- The navigation invariant holds in every reachable state: a logged-out
state shows the login view, and the chat view is only ever shown with all
three selections populated. -/
theorem reachable_navInv (cfg : Config) (g : Bool) (s : NavState)
    (hr : Reachable cfg g s) :
    (s.logged_in = false → s.current_view = "login") ∧
    (s.current_view = "chat" → s.selected_course.isSome = true ∧
      s.selected_cohort.isSome = true ∧ truthyLevel s.selected_level = true) := by
  induction hr with
  | init fresh =>
    refine ⟨fun _ => rfl, fun hchat => ?_⟩
    simp [initState] at hchat
  | next s a hs ih =>
    exact navInv_renderGuard (applyAction cfg g s a)
      (applyAction_logged_out_view cfg g s a ih.1)

/-- C2: for every sequence of navigation actions the machine is never in
the chat view with an unset Course, Cohort or Level, and whenever one of
the three guarded screens is entered with a prerequisite selection unset
the guard immediately sends the state back to course selection with no
other state change. -/
theorem c2_chat_guard_invariant (cfg : Config) (g : Bool) :
    (∀ s : NavState, Reachable cfg g s → s.current_view = "chat" →
      s.selected_course.isSome = true ∧ s.selected_cohort.isSome = true ∧
      truthyLevel s.selected_level = true) ∧
    (∀ s : NavState, s.logged_in = true →
      ((s.current_view = "cohort_selection" ∧ s.selected_course = none) ∨
       (s.current_view = "level_selection" ∧
         (s.selected_course = none ∨ s.selected_cohort = none)) ∨
       (s.current_view = "chat" ∧
         (s.selected_course = none ∨ s.selected_cohort = none ∨ s.selected_level = none))) →
      renderGuard s = { s with current_view := "course_selection" }) := by
  constructor
  · intro s hr
    exact (reachable_navInv cfg g s hr).2
  · intro s hl hcase
    have hg : guardTrips s = true := by
      unfold guardTrips
      rw [hl]
      simp only [Bool.true_and]
      rcases hcase with ⟨hv, hc⟩ | ⟨hv, hc⟩ | ⟨hv, hc⟩
      · rw [hv, hc]; simp
      · rw [hv]
        rcases hc with hc | hc <;> rw [hc] <;> simp
      · rw [hv]
        rcases hc with hc | hc | hc <;> rw [hc] <;> simp [truthyLevel]
    unfold renderGuard
    rw [if_pos hg]

/-- Witness for C2: the reachable sample chat state has all selections
populated, and the guard bounces a chat view with no course back to course
selection changing nothing else. -/
theorem c2_chat_guard_invariant_witness :
    (chatNavState.selected_course.isSome = true ∧ chatNavState.selected_cohort.isSome = true ∧
      truthyLevel chatNavState.selected_level = true) ∧
    renderGuard brokenNavState = { brokenNavState with current_view := "course_selection" } :=
  ⟨(c2_chat_guard_invariant sampleConfig true).1 chatNavState chatNavState_reachable rfl,
   (c2_chat_guard_invariant sampleConfig true).2 brokenNavState rfl
     (Or.inr (Or.inr ⟨rfl, Or.inl rfl⟩))⟩

/-- C1 (counterexample): the claim says Logout sets the selected Course,
Cohort and Level back to empty, but the logout handler of app_new.py lines
387-395 leaves them untouched: from the sample chat state, after Logout
the selections are still populated. -/
theorem c1_logout_counterexample :
    (step sampleConfig true chatNavState (Action.logout "sid-2")).selected_course =
      some sampleCourse ∧
    (step sampleConfig true chatNavState (Action.logout "sid-2")).selected_cohort =
      some sampleCohort ∧
    (step sampleConfig true chatNavState (Action.logout "sid-2")).selected_level = some 1 ∧
    (step sampleConfig true chatNavState (Action.logout "sid-2")).selected_course ≠ none := by
  refine ⟨rfl, rfl, rfl, by decide⟩

/-- C1 (amended): from every logged-in state, Logout transitions to the
login view, clears the authenticated-user fields, replaces the session
identifier with the freshly issued one, and empties the in-memory chat
turn lists of the whole session; the selected Course, Cohort and Level are
left unchanged. -/
theorem c1_logout_amended (cfg : Config) (g : Bool) (s : NavState) (fresh : String)
    (hl : s.logged_in = true) (hfresh : fresh ≠ s.session_id) :
    step cfg g s (Action.logout fresh) =
      { s with logged_in := false, user_id := none, user_name := none, username := none,
               current_view := "login", session_id := fresh, chat_histories := [] } ∧
    (step cfg g s (Action.logout fresh)).session_id ≠ s.session_id := by
  have happ : step cfg g s (Action.logout fresh) =
      { s with logged_in := false, user_id := none, user_name := none, username := none,
               current_view := "login", session_id := fresh, chat_histories := [] } := by
    unfold step applyAction
    rw [hl]
    simp [renderGuard, guardTrips]
  refine ⟨happ, ?_⟩
  rw [happ]
  simpa using hfresh

/-- Witness for the amended C1 at the sample chat state. -/
theorem c1_logout_amended_witness :
    step sampleConfig true chatNavState (Action.logout "sid-2") =
      { chatNavState with logged_in := false, user_id := none, user_name := none,
                          username := none, current_view := "login", session_id := "sid-2",
                          chat_histories := [] } ∧
    (step sampleConfig true chatNavState (Action.logout "sid-2")).session_id ≠
      chatNavState.session_id :=
  c1_logout_amended sampleConfig true chatNavState "sid-2" rfl (by decide)

/-- C7 (counterexample): the claim says the exit/back action from chat
clears the selected Level, but the sidebar Back button of app_new.py lines
317-320 transitions chat to level selection without clearing it: from the
sample chat state the level is still set after that action. -/
theorem c7_back_counterexample :
    (step sampleConfig true chatNavState Action.sidebarBack).current_view =
      "level_selection" ∧
    (step sampleConfig true chatNavState Action.sidebarBack).selected_level = some 1 ∧
    (step sampleConfig true chatNavState Action.sidebarBack).selected_level ≠ none :=
  ⟨rfl, rfl, by decide⟩

/-- C7 (amended): from every chat state, the Exit Chat button transitions
to level selection, clears the selected Level and leaves Course and Cohort
unchanged, while the sidebar Back button transitions to level selection
leaving Course, Cohort and also the selected Level unchanged. -/
theorem c7_exit_back_amended (cfg : Config) (g : Bool) (s : NavState) (course : Course)
    (cohort : Cohort) (level : Int)
    (hl : s.logged_in = true) (hv : s.current_view = "chat")
    (hcs : s.selected_course = some course) (hcos : s.selected_cohort = some cohort)
    (hlv : s.selected_level = some level) (hnz : level ≠ 0) :
    step cfg g s Action.exitChat =
      { s with current_view := "level_selection", selected_level := none } ∧
    step cfg g s Action.sidebarBack = { s with current_view := "level_selection" } := by
  constructor
  · unfold step applyAction
    rw [hl, hv, hcs, hcos, hlv]
    simp [truthyLevel, hnz, renderGuard, guardTrips]
  · unfold step applyAction
    rw [hl, hv]
    simp [renderGuard, guardTrips, hcs, hcos]

/-- Witness for the amended C7 at the sample chat state. -/
theorem c7_exit_back_amended_witness :
    step sampleConfig true chatNavState Action.exitChat =
      { chatNavState with current_view := "level_selection", selected_level := none } ∧
    step sampleConfig true chatNavState Action.sidebarBack =
      { chatNavState with current_view := "level_selection" } :=
  c7_exit_back_amended sampleConfig true chatNavState sampleCourse sampleCohort 1
    rfl rfl rfl rfl rfl (by decide)

/-- C3: one chat submission appends exactly two turns to the turn list of
the active chat key, first the user turn holding the submitted text and
then the assistant turn holding the gateway result, and when the provider
interaction fails the assistant content is the formatted error string. -/
theorem c3_submit_appends_two (cfg : Config) (s : NavState) (course : Course) (cohort : Cohort)
    (level : Int) (k prompt : String)
    (provider : String → List GeminiMsg → String → Except String String)
    (h1 : s.logged_in = true) (h2 : s.current_view = "chat")
    (hcs : s.selected_course = some course) (hcos : s.selected_cohort = some cohort)
    (hlv : s.selected_level = some level) (hnz : level ≠ 0) (hp : prompt ≠ "")
    (hk : get_chat_key s = some k) :
    (step cfg true s (Action.submit prompt provider)).chat_histories.lookup k =
      some (((s.chat_histories.lookup k).getD []) ++
        [ChatTurn.mk "user" prompt,
         ChatTurn.mk "assistant"
           (get_gemini_response ((levelDataOf cohort level).system_prompt.getD "")
             (submitHistoryArg ((s.chat_histories.lookup k).getD []) prompt) prompt provider)]) ∧
    ∀ e, provider ((levelDataOf cohort level).system_prompt.getD "")
        (translateHistory (submitHistoryArg ((s.chat_histories.lookup k).getD []) prompt)) prompt
        = Except.error e →
      get_gemini_response ((levelDataOf cohort level).system_prompt.getD "")
        (submitHistoryArg ((s.chat_histories.lookup k).getD []) prompt) prompt provider =
        "I apologize, but I encountered an error: " ++ e := by
  refine ⟨?_, fun e he => get_gemini_response_error _ _ _ _ e he⟩
  unfold step applyAction
  rw [hcos, hlv, hk]
  simp [h1, h2, hcs, truthyLevel, hnz, hp, renderGuard, guardTrips, lookup_setEntry]

/-- Witness for C3 at the sample chat state with a failing provider: the
empty turn list grows to exactly the user turn and the error assistant
turn. -/
theorem c3_submit_appends_two_witness :
    (step sampleConfig true chatNavState
        (Action.submit "What is mens rea?" c3Provider)).chat_histories.lookup
        "criminal_law_ai_1" =
      some [ChatTurn.mk "user" "What is mens rea?",
            ChatTurn.mk "assistant" "I apologize, but I encountered an error: boom"] :=
  (c3_submit_appends_two sampleConfig chatNavState sampleCourse sampleCohort 1
    "criminal_law_ai_1" "What is mens rea?" c3Provider rfl rfl rfl rfl rfl
    (by decide) (by decide) rfl).1

/-
Persistence layer lemmas.
-/

/-- A find on a list every element of which fails the session key filter
returns nothing. -/
theorem find_one_eq_none {db : List SessionDoc} {sid : String} {uid : Option String}
    (h : ∀ d ∈ db, sessionKeyMatch sid uid d = false) :
    find_one db sid uid = none := by
  rw [find_one, List.find?_eq_none]
  intro x hx
  simp [h x hx]

/-- A find skips a prefix in which it finds nothing. -/
theorem find_one_append {db1 db2 : List SessionDoc} {sid : String} {uid : Option String}
    (h : find_one db1 sid uid = none) :
    find_one (db1 ++ db2) sid uid = find_one db2 sid uid := by
  unfold find_one at *
  simp [List.find?_append, h]

/-- An update targeting a document appended after non-matching documents
rewrites exactly that document. -/
theorem update_one_append {db : List SessionDoc} {d : SessionDoc} {sid : String}
    {uid : Option String} {f : SessionDoc → SessionDoc}
    (h : ∀ x ∈ db, sessionKeyMatch sid uid x = false)
    (hd : sessionKeyMatch sid uid d = true) :
    update_one (db ++ [d]) sid uid f = db ++ [f d] := by
  induction db with
  | nil => simp [update_one, hd]
  | cons x rest ih =>
    have hx : sessionKeyMatch sid uid x = false := h x (by simp)
    simp only [List.cons_append, update_one, hx]
    simp only [Bool.false_eq_true, if_false]
    rw [List.append_eq, ih (fun y hy => h y (by simp [hy]))]

/-- Filtering a list of non-matching documents plus one matching document
keeps exactly that document. -/
theorem filter_append_single {p : SessionDoc → Bool} {db : List SessionDoc} {d : SessionDoc}
    (h : ∀ x ∈ db, p x = false) (hd : p d = true) :
    (db ++ [d]).filter p = [d] := by
  rw [List.filter_append, List.filter_eq_nil_iff.2 (by intro a ha; simp [h a ha])]
  simp [List.filter, hd]

/-- Finding after an update that preserves the key yields the updated
document. -/
theorem find_one_update_one (db : List SessionDoc) (sid : String) (uid : Option String)
    (f : SessionDoc → SessionDoc) (d : SessionDoc)
    (hf : find_one db sid uid = some d)
    (hpres : sessionKeyMatch sid uid (f d) = true) :
    find_one (update_one db sid uid f) sid uid = some (f d) := by
  induction db with
  | nil => simp [find_one, List.find?] at hf
  | cons x rest ih =>
    by_cases hx : sessionKeyMatch sid uid x = true
    · have hdx : d = x := by
        unfold find_one at hf
        rw [List.find?_cons_of_pos _ hx] at hf
        exact (Option.some.inj hf).symm
      subst hdx
      unfold update_one
      rw [if_pos hx]
      unfold find_one
      rw [List.find?_cons_of_pos _ hpres]
    · have hx0 : sessionKeyMatch sid uid x = false := by simpa using hx
      unfold find_one at hf
      rw [List.find?_cons_of_neg _ (by simp [hx0])] at hf
      unfold update_one
      rw [if_neg (by simp [hx0])]
      unfold find_one
      rw [List.find?_cons_of_neg _ (by simp [hx0])]
      exact ih hf

/-- With a client present and no aggregate for the pair yet, the upsert
inserts the fresh document with the entry as its whole history. -/
theorem upsert_insert (now : Nat) (uid un : Option String) (ci cn chi chn : String) (bl : Int)
    (sid : String) (e : ChatEntry) (t : Nat) (ie : Bool) (w : World)
    (hf : find_one w.user_sessions sid uid = none) :
    create_or_update_user_session now (some ()) uid un ci cn chi chn bl sid (some e) t ie w =
      { w with user_sessions := w.user_sessions ++
          [{ session_id := sid, user_id := uid, user_name := un, course_id := ci,
             course_name := cn, cohort_id := chi, cohort_name := chn, bloom_level := bl,
             chat_start_time := now, chat_end_time := none, usage_tokens := t,
             chat_history := [e] }] } := by
  unfold create_or_update_user_session
  rw [hf]

/-- With a client present and an aggregate found for the pair, the upsert
with a chat entry applies the push, increment and set update to the first
matching document. -/
theorem upsert_update (now : Nat) (uid un : Option String) (ci cn chi chn : String) (bl : Int)
    (sid : String) (e : ChatEntry) (t : Nat) (ie : Bool) (w : World) (d : SessionDoc)
    (hf : find_one w.user_sessions sid uid = some d) :
    create_or_update_user_session now (some ()) uid un ci cn chi chn bl sid (some e) t ie w =
      { w with user_sessions := update_one w.user_sessions sid uid (fun x =>
          { x with chat_history := x.chat_history ++ [e],
                   usage_tokens := x.usage_tokens + t,
                   chat_end_time := if ie then some now else d.chat_end_time }) } := by
  unfold create_or_update_user_session
  rw [hf]

/-- C5: calling the session upsert twice for the same (session_id, user_id)
pair with two different chat entries, against a store holding no aggregate
for that pair, leaves exactly one aggregate record for the pair, whose
chat_history holds both entries in submission order and whose usage_tokens
is the sum of the two token counts. -/
theorem c5_upsert_single_aggregate (w : World) (sid : String) (uid un : Option String)
    (ci cn chi chn : String) (bl : Int) (e1 e2 : ChatEntry) (t1 t2 n1 n2 : Nat)
    (hempty : ∀ d ∈ w.user_sessions, sessionKeyMatch sid uid d = false)
    (hne : e1 ≠ e2) :
    ((create_or_update_user_session n2 (some ()) uid un ci cn chi chn bl sid (some e2) t2 false
        (create_or_update_user_session n1 (some ()) uid un ci cn chi chn bl sid (some e1) t1 false
          w)).user_sessions.filter (sessionKeyMatch sid uid)).length = 1 ∧
    (find_one (create_or_update_user_session n2 (some ()) uid un ci cn chi chn bl sid (some e2) t2
        false (create_or_update_user_session n1 (some ()) uid un ci cn chi chn bl sid (some e1) t1
          false w)).user_sessions sid uid).map SessionDoc.chat_history = some [e1, e2] ∧
    (find_one (create_or_update_user_session n2 (some ()) uid un ci cn chi chn bl sid (some e2) t2
        false (create_or_update_user_session n1 (some ()) uid un ci cn chi chn bl sid (some e1) t1
          false w)).user_sessions sid uid).map SessionDoc.usage_tokens = some (t1 + t2) := by
  have hf0 : find_one w.user_sessions sid uid = none := find_one_eq_none hempty
  rw [upsert_insert n1 uid un ci cn chi chn bl sid e1 t1 false w hf0]
  set doc1 : SessionDoc :=
    { session_id := sid, user_id := uid, user_name := un, course_id := ci, course_name := cn,
      cohort_id := chi, cohort_name := chn, bloom_level := bl, chat_start_time := n1,
      chat_end_time := none, usage_tokens := t1, chat_history := [e1] } with hdoc1
  have hd1 : sessionKeyMatch sid uid doc1 = true := by simp [sessionKeyMatch, hdoc1]
  have hf1 : find_one (w.user_sessions ++ [doc1]) sid uid = some doc1 := by
    rw [find_one_append hf0]
    unfold find_one
    rw [List.find?_cons_of_pos _ hd1]
  rw [upsert_update n2 uid un ci cn chi chn bl sid e2 t2 false _ doc1 hf1]
  dsimp only
  rw [update_one_append hempty hd1]
  refine ⟨?_, ?_, ?_⟩
  · rw [filter_append_single hempty (by simp [sessionKeyMatch, hdoc1])]
    rfl
  · rw [find_one_append hf0]
    unfold find_one
    rw [List.find?_cons_of_pos _ (by simp [sessionKeyMatch, hdoc1])]
    simp [hdoc1]
  · rw [find_one_append hf0]
    unfold find_one
    rw [List.find?_cons_of_pos _ (by simp [sessionKeyMatch, hdoc1])]
    simp [hdoc1]

/-- Witness for C5 on an empty store with two concrete entries and token
counts 2 and 3. -/
theorem c5_upsert_single_aggregate_witness :
    ((create_or_update_user_session 8 (some ()) (some "u1") (some "Alice") "criminal_law"
        "Criminal Law" "ai" "AI Led" 1 "s1" (some c56Entry2) 3 false
        (create_or_update_user_session 7 (some ()) (some "u1") (some "Alice") "criminal_law"
          "Criminal Law" "ai" "AI Led" 1 "s1" (some c56Entry1) 2 false
          emptyWorld)).user_sessions.filter (sessionKeyMatch "s1" (some "u1"))).length = 1 ∧
    (find_one (create_or_update_user_session 8 (some ()) (some "u1") (some "Alice") "criminal_law"
        "Criminal Law" "ai" "AI Led" 1 "s1" (some c56Entry2) 3 false
        (create_or_update_user_session 7 (some ()) (some "u1") (some "Alice") "criminal_law"
          "Criminal Law" "ai" "AI Led" 1 "s1" (some c56Entry1) 2 false
          emptyWorld)).user_sessions "s1" (some "u1")).map SessionDoc.chat_history =
      some [c56Entry1, c56Entry2] ∧
    (find_one (create_or_update_user_session 8 (some ()) (some "u1") (some "Alice") "criminal_law"
        "Criminal Law" "ai" "AI Led" 1 "s1" (some c56Entry2) 3 false
        (create_or_update_user_session 7 (some ()) (some "u1") (some "Alice") "criminal_law"
          "Criminal Law" "ai" "AI Led" 1 "s1" (some c56Entry1) 2 false
          emptyWorld)).user_sessions "s1" (some "u1")).map SessionDoc.usage_tokens =
      some (2 + 3) :=
  c5_upsert_single_aggregate emptyWorld "s1" (some "u1") (some "Alice") "criminal_law"
    "Criminal Law" "ai" "AI Led" 1 c56Entry1 c56Entry2 2 3 7 8 (by simp [emptyWorld]) (by decide)

/-- C6 (counterexample): the claim says every subsequent chat-entry upsert
refreshes the end-time to the current time, but an upsert at time 42
against an existing aggregate with a null end time leaves the end time
null rather than setting it to 42, because the code only refreshes it when
the is_end flag is set. -/
theorem c6_end_time_counterexample :
    (find_one (create_or_update_user_session 42 (some ()) (some "u1") (some "Alice")
        "criminal_law" "Criminal Law" "ai" "AI Led" 1 "s1" (some c56Entry2) 3 false
        c6World).user_sessions "s1" (some "u1")).map SessionDoc.chat_end_time = some none ∧
    (find_one (create_or_update_user_session 42 (some ()) (some "u1") (some "Alice")
        "criminal_law" "Criminal Law" "ai" "AI Led" 1 "s1" (some c56Entry2) 3 false
        c6World).user_sessions "s1" (some "u1")).map SessionDoc.chat_end_time ≠
      some (some 42) := by
  refine ⟨rfl, by decide⟩

/-- C6 (amended): every subsequent chat-entry upsert for an existing
aggregate appends the entry to its history and increments its token count,
and sets the end-time field to the current time only when the call carries
the is_end flag, keeping its previous value otherwise. -/
theorem c6_amended_end_time (now : Nat) (uid un : Option String) (ci cn chi chn : String)
    (bl : Int) (sid : String) (e : ChatEntry) (t : Nat) (ie : Bool) (w : World) (d : SessionDoc)
    (hf : find_one w.user_sessions sid uid = some d) :
    find_one (create_or_update_user_session now (some ()) uid un ci cn chi chn bl sid (some e) t
        ie w).user_sessions sid uid =
      some { d with chat_history := d.chat_history ++ [e],
                    usage_tokens := d.usage_tokens + t,
                    chat_end_time := if ie then some now else d.chat_end_time } := by
  rw [upsert_update now uid un ci cn chi chn bl sid e t ie w d hf]
  have hd : sessionKeyMatch sid uid d = true := List.find?_some hf
  exact find_one_update_one w.user_sessions sid uid _ d hf (by
    simpa [sessionKeyMatch] using hd)

/-- Witness for the amended C6 on the concrete one-aggregate store. -/
theorem c6_amended_end_time_witness :
    find_one (create_or_update_user_session 42 (some ()) (some "u1") (some "Alice") "criminal_law"
        "Criminal Law" "ai" "AI Led" 1 "s1" (some c56Entry2) 3 false c6World).user_sessions "s1"
        (some "u1") =
      some { c6Doc with chat_history := [c56Entry1, c56Entry2], usage_tokens := 7,
                        chat_end_time := none } :=
  c6_amended_end_time 42 (some "u1") (some "Alice") "criminal_law" "Criminal Law" "ai" "AI Led"
    1 "s1" c56Entry2 3 false c6World c6Doc rfl

/-- A generic find skips a prefix in which it finds nothing. -/
theorem find_none_append {α : Type} {p : α → Bool} {l1 l2 : List α}
    (h : l1.find? p = none) : (l1 ++ l2).find? p = l2.find? p := by
  simp [List.find?_append, h]

/-- C9: registering a username not yet present succeeds, and registering
it a second time yields the duplicate failure result with the message
Username already exists rather than an exception, both when the primary
users collection is the active backing store and when the local fallback
mapping is. -/
theorem c9_register_twice (hash : String → String) (db : List UserDoc)
    (locals : List (String × LocalUserRec)) (username p1 p2 n1 n2 u1 u2 : String)
    (t1 t2 : Nat)
    (hM : db.find? (fun u => u.username == username) = none)
    (hL : locals.find? (fun p => p.1 == username) = none) :
    ((register_user hash (some db) locals username p1 n1 u1 t1).result.success = true ∧
     (register_user hash (register_user hash (some db) locals username p1 n1 u1 t1).mongo_users
        (register_user hash (some db) locals username p1 n1 u1 t1).local_users
        username p2 n2 u2 t2).result.success = false ∧
     (register_user hash (register_user hash (some db) locals username p1 n1 u1 t1).mongo_users
        (register_user hash (some db) locals username p1 n1 u1 t1).local_users
        username p2 n2 u2 t2).result.message = "Username already exists") ∧
    ((register_user hash none locals username p1 n1 u1 t1).result.success = true ∧
     (register_user hash none (register_user hash none locals username p1 n1 u1 t1).local_users
        username p2 n2 u2 t2).result.success = false ∧
     (register_user hash none (register_user hash none locals username p1 n1 u1 t1).local_users
        username p2 n2 u2 t2).result.message = "Username already exists") := by
  have h1 : register_user hash (some db) locals username p1 n1 u1 t1 =
      { result := { success := true, user_id := some u1, message := "User registered successfully" },
        mongo_users := some (db ++ [{ user_id := u1, username := username, password := hash p1, name := n1, created_at := t1 }]),
        local_users := locals } := by
    simp only [register_user]
    rw [hM]
    rfl
  have hf2 : (db ++ [({ user_id := u1, username := username, password := hash p1, name := n1, created_at := t1 } : UserDoc)]).find? (fun u => u.username == username) =
      some { user_id := u1, username := username, password := hash p1, name := n1, created_at := t1 } := by
    rw [find_none_append hM]
    simp [List.find?]
  have g1 : register_user hash none locals username p1 n1 u1 t1 =
      { result := { success := true, user_id := some u1, message := "User registered successfully (local storage)" },
        mongo_users := none,
        local_users := locals ++ [(username, { user_id := u1, password := hash p1, name := n1, created_at := t1 })] } := by
    simp only [register_user]
    rw [hL]
    rfl
  have gf2 : (locals ++ [(username, ({ user_id := u1, password := hash p1, name := n1, created_at := t1 } : LocalUserRec))]).find? (fun p => p.1 == username) =
      some (username, { user_id := u1, password := hash p1, name := n1, created_at := t1 }) := by
    rw [find_none_append hL]
    simp [List.find?]
  refine ⟨⟨?_, ?_, ?_⟩, ⟨?_, ?_, ?_⟩⟩
  · rw [h1]
  · rw [h1]
    simp only [register_user]
    rw [hf2]
    rfl
  · rw [h1]
    simp only [register_user]
    rw [hf2]
    rfl
  · rw [g1]
  · rw [g1]
    simp only [register_user]
    rw [gf2]
    rfl
  · rw [g1]
    simp only [register_user]
    rw [gf2]
    rfl

/-- Witness for C9 on empty backing stores with the identity digest
function standing in for a concrete hash. -/
theorem c9_register_twice_witness :
    ((register_user (fun s => s) (some []) [] "alice" "pw1" "Alice" "uuid-1" 1).result.success = true ∧
     (register_user (fun s => s)
        (register_user (fun s => s) (some []) [] "alice" "pw1" "Alice" "uuid-1" 1).mongo_users
        (register_user (fun s => s) (some []) [] "alice" "pw1" "Alice" "uuid-1" 1).local_users
        "alice" "pw2" "Alice2" "uuid-2" 2).result.success = false ∧
     (register_user (fun s => s)
        (register_user (fun s => s) (some []) [] "alice" "pw1" "Alice" "uuid-1" 1).mongo_users
        (register_user (fun s => s) (some []) [] "alice" "pw1" "Alice" "uuid-1" 1).local_users
        "alice" "pw2" "Alice2" "uuid-2" 2).result.message = "Username already exists") ∧
    ((register_user (fun s => s) none [] "alice" "pw1" "Alice" "uuid-1" 1).result.success = true ∧
     (register_user (fun s => s) none
        (register_user (fun s => s) none [] "alice" "pw1" "Alice" "uuid-1" 1).local_users
        "alice" "pw2" "Alice2" "uuid-2" 2).result.success = false ∧
     (register_user (fun s => s) none
        (register_user (fun s => s) none [] "alice" "pw1" "Alice" "uuid-1" 1).local_users
        "alice" "pw2" "Alice2" "uuid-2" 2).result.message = "Username already exists") :=
  c9_register_twice (fun s => s) [] [] "alice" "pw1" "pw2" "Alice" "Alice2" "uuid-1" "uuid-2"
    1 2 rfl rfl

end Erg
